import Mathlib

/-!
Verification of the AWS Signature Version 4 signing core shared by the
scripts `paapi_get_item.py`, `paapi_search_items.py` and
`investigate_browsenodes.py`.

Bytes are modelled as natural numbers below 256, 32-bit words as natural
numbers reduced modulo 2^32.  SHA-256 and HMAC-SHA256 are implemented in
full (FIPS 180-4 / RFC 2104), exactly as Python's `hashlib.sha256` and
`hmac.new(..., hashlib.sha256)` behave on byte strings.  Python's
`str.encode('utf-8')` is modelled by a literal UTF-8 encoder on the
string's Unicode scalar values.
-/

set_option maxRecDepth 100000

/-- 2^32, the word modulus of SHA-256. -/
def M32 : Nat := 4294967296

/-- Right rotation of a 32-bit word by `n` places. -/
def rotr (n x : Nat) : Nat := ((x >>> n) ||| (x <<< (32 - n))) % M32

/-- SHA-256 Ch function. -/
def ch (x y z : Nat) : Nat := (x &&& y) ^^^ ((x ^^^ 4294967295) &&& z)

/-- SHA-256 Maj function. -/
def maj (x y z : Nat) : Nat := (x &&& y) ^^^ (x &&& z) ^^^ (y &&& z)

/-- SHA-256 Σ0. -/
def bigSigma0 (x : Nat) : Nat := rotr 2 x ^^^ rotr 13 x ^^^ rotr 22 x

/-- SHA-256 Σ1. -/
def bigSigma1 (x : Nat) : Nat := rotr 6 x ^^^ rotr 11 x ^^^ rotr 25 x

/-- SHA-256 σ0. -/
def smallSigma0 (x : Nat) : Nat := rotr 7 x ^^^ rotr 18 x ^^^ (x >>> 3)

/-- SHA-256 σ1. -/
def smallSigma1 (x : Nat) : Nat := rotr 17 x ^^^ rotr 19 x ^^^ (x >>> 10)

/-- The 64 SHA-256 round constants (FIPS 180-4 §4.2.2), in decimal. -/
def K256 : List Nat :=
  [1116352408, 1899447441, 3049323471, 3921009573, 961987163, 1508970993,
   2453635748, 2870763221, 3624381080, 310598401, 607225278, 1426881987,
   1925078388, 2162078206, 2614888103, 3248222580, 3835390401, 4022224774,
   264347078, 604807628, 770255983, 1249150122, 1555081692, 1996064986,
   2554220882, 2821834349, 2952996808, 3210313671, 3336571891, 3584528711,
   113926993, 338241895, 666307205, 773529912, 1294757372, 1396182291,
   1695183700, 1986661051, 2177026350, 2456956037, 2730485921, 2820302411,
   3259730800, 3345764771, 3516065817, 3600352804, 4094571909, 275423344,
   430227734, 506948616, 659060556, 883997877, 958139571, 1322822218,
   1537002063, 1747873779, 1955562222, 2024104815, 2227730452, 2361852424,
   2428436474, 2756734187, 3204031479, 3329325298]

/-- The SHA-256 initial hash value (FIPS 180-4 §5.3.3), in decimal. -/
def H256 : List Nat :=
  [1779033703, 3144134277, 1013904242, 2773480762,
   1359893119, 2600822924, 528734635, 1541459225]

/-- Group a byte list into big-endian 32-bit words, four bytes per word. -/
def toWords : List Nat → List Nat
  | b0 :: b1 :: b2 :: b3 :: rest => (((b0 * 256 + b1) * 256 + b2) * 256 + b3) :: toWords rest
  | _ => []

/-- Extend the message schedule, kept in reverse order (most recent word
first); `n` is the number of words still to produce. -/
def extendSchedule : Nat → List Nat → List Nat
  | 0, r => r
  | n + 1, r =>
    let w := (r.getD 15 0 + smallSigma0 (r.getD 14 0) + r.getD 6 0 + smallSigma1 (r.getD 1 0)) % M32
    extendSchedule n (w :: r)

/-- The 64-word message schedule of one 64-byte block. -/
def schedule (block : List Nat) : List Nat :=
  (extendSchedule 48 (toWords block).reverse).reverse

/-- One SHA-256 round: transform the working variables `[a,b,c,d,e,f,g,h]`
with round constant `kw.1` and schedule word `kw.2`. -/
def round256 : List Nat → Nat × Nat → List Nat
  | [a, b, c, d, e, f, g, h], (k, w) =>
    let t1 := (h + bigSigma1 e + ch e f g + k + w) % M32
    let t2 := (bigSigma0 a + maj a b c) % M32
    [(t1 + t2) % M32, a, b, c, (d + t1) % M32, e, f, g]
  | s, _ => s

/-- SHA-256 compression of one 64-byte block into the chaining value. -/
def compress (h : List Nat) (block : List Nat) : List Nat :=
  let s := ((K256.zip (schedule block)).foldl round256 h)
  (h.zip s).map (fun p => (p.1 + p.2) % M32)

/-- Big-endian 8-byte encoding of a (message bit-) length. -/
def lenBytes (n : Nat) : List Nat :=
  [(n >>> 56) % 256, (n >>> 48) % 256, (n >>> 40) % 256, (n >>> 32) % 256,
   (n >>> 24) % 256, (n >>> 16) % 256, (n >>> 8) % 256, n % 256]

/-- SHA-256 padding: append `0x80`, zeros to 56 mod 64, then the 64-bit
big-endian bit length. -/
def padMessage (msg : List Nat) : List Nat :=
  msg ++ [128] ++ List.replicate ((119 - msg.length % 64) % 64) 0 ++ lenBytes (msg.length * 8)

/-- Fold the compression function over `n` consecutive 64-byte blocks. -/
def processBlocks : Nat → List Nat → List Nat → List Nat
  | 0, h, _ => h
  | n + 1, h, l => processBlocks n (compress h (l.take 64)) (l.drop 64)

/-- Split a 32-bit word into four big-endian bytes. -/
def wordBytes (w : Nat) : List Nat := [(w >>> 24) % 256, (w >>> 16) % 256, (w >>> 8) % 256, w % 256]

/-- SHA-256 of a byte list, as the 32 digest bytes. -/
def sha256 (msg : List Nat) : List Nat :=
  let padded := padMessage msg
  (processBlocks (padded.length / 64) H256 padded).map wordBytes |>.flatten

/-- Lowercase hexadecimal digit for a value below 16. -/
def hexChar (n : Nat) : Char := if n < 10 then Char.ofNat (48 + n) else Char.ofNat (87 + n)

/-- Two lowercase hex digits of one byte. -/
def byteHex (b : Nat) : List Char := [hexChar (b / 16), hexChar (b % 16)]

/-- Lowercase hex string of a byte list — Python's `.hexdigest()`. -/
def hexdigest (bs : List Nat) : String := ⟨(bs.map byteHex).flatten⟩

/-- UTF-8 encoding of one Unicode scalar value. -/
def utf8Char (c : Char) : List Nat :=
  let n := c.toNat
  if n < 128 then [n]
  else if n < 2048 then [192 ||| (n >>> 6), 128 ||| (n &&& 63)]
  else if n < 65536 then [224 ||| (n >>> 12), 128 ||| ((n >>> 6) &&& 63), 128 ||| (n &&& 63)]
  else [240 ||| (n >>> 18), 128 ||| ((n >>> 12) &&& 63), 128 ||| ((n >>> 6) &&& 63), 128 ||| (n &&& 63)]

/-- UTF-8 byte encoding of a string — Python's `.encode('utf-8')`. -/
def utf8 (s : String) : List Nat := (s.data.map utf8Char).flatten

/-- HMAC-SHA256 (RFC 2104, block size 64) — Python's
`hmac.new(key, msg, hashlib.sha256).digest()`. -/
def hmacSha256 (key msg : List Nat) : List Nat :=
  let k0 := if key.length > 64 then sha256 key else key
  let kp := k0 ++ List.replicate (64 - k0.length) 0
  sha256 ((kp.map (fun b => b ^^^ 92)) ++ sha256 ((kp.map (fun b => b ^^^ 54)) ++ msg))

/-!
## Timestamps

`get_signed_headers` captures `t = datetime.datetime.utcnow()` once and
renders it twice, with `t.strftime('%Y%m%dT%H%M%SZ')` and
`t.strftime('%Y%m%d')`.  The captured instant is modelled as an explicit
parameter; the two `strftime` renderings are modelled field by field with
zero-padded decimal fields (`%Y` to four digits, the rest to two).
-/

/-- The decimal digit character of a value below ten. -/
def digitChar (n : Nat) : Char := Char.ofNat (48 + n)

/-- Decimal digits of `n`, most significant first; the first argument is
recursion fuel, always called with fuel larger than the digit count. -/
def natDigits : Nat → Nat → List Char
  | 0, _ => []
  | fuel + 1, n => if n < 10 then [digitChar n] else natDigits fuel (n / 10) ++ [digitChar (n % 10)]

/-- Decimal rendering of a natural number. -/
def natStr (n : Nat) : String := ⟨natDigits (n + 1) n⟩

/-- Zero-pad a string on the left to width `w`. -/
def padLeft (w : Nat) (s : String) : String := ⟨List.replicate (w - s.data.length) '0' ++ s.data⟩

/-- A calendar instant as captured by `datetime.datetime.utcnow()`. -/
structure DateTime where
  year : Nat
  month : Nat
  day : Nat
  hour : Nat
  minute : Nat
  second : Nat
deriving DecidableEq

/-- `t.strftime('%Y%m%dT%H%M%SZ')` — the full ISO-8601-basic instant. -/
def amzDateOf (t : DateTime) : String :=
  padLeft 4 (natStr t.year) ++ padLeft 2 (natStr t.month) ++ padLeft 2 (natStr t.day) ++ "T" ++
    padLeft 2 (natStr t.hour) ++ padLeft 2 (natStr t.minute) ++ padLeft 2 (natStr t.second) ++ "Z"

/-- `t.strftime('%Y%m%d')` — the date-only stamp. -/
def dateStampOf (t : DateTime) : String :=
  padLeft 4 (natStr t.year) ++ padLeft 2 (natStr t.month) ++ padLeft 2 (natStr t.day)

/-- The header mapping returned by `get_signed_headers` (the Python dict
literal with its six fixed keys). -/
structure Headers where
  host : String
  x_amz_date : String
  x_amz_target : String
  content_type : String
  authorization : String
  content_encoding : String
deriving DecidableEq

/-! ## `scripts/paapi_get_item.py` -/

namespace PaapiGetItem

/-- `sign(key, msg)`: `hmac.new(key, msg.encode('utf-8'), hashlib.sha256).digest()`. -/
def sign (key : List Nat) (msg : String) : List Nat := hmacSha256 key (utf8 msg)

/-- `get_signature_key(key, date_stamp, region_name, service_name)`. -/
def get_signature_key (key date_stamp region_name service_name : String) : List Nat :=
  let k_date := sign (utf8 ("AWS4" ++ key)) date_stamp
  let k_region := sign k_date region_name
  let k_service := sign k_region service_name
  let k_signing := sign k_service "aws4_request"
  k_signing

/-- `method = 'POST'`. -/
def method : String := "POST"

/-- `canonical_uri = '/paapi5/getitems'`. -/
def canonical_uri : String := "/paapi5/getitems"

/-- `canonical_querystring = ''`. -/
def canonical_querystring : String := ""

/-- The canonical headers block of line 45, a function of the host and the
full timestamp rendering. -/
def canonical_headers (host amz_date : String) : String :=
  "host:" ++ host ++ "\n" ++ "x-amz-date:" ++ amz_date ++ "\n" ++
    "x-amz-target:com.amazon.paapi5.v1.ProductAdvertisingAPIv1.GetItems\n"

/-- `signed_headers = 'host;x-amz-date;x-amz-target'`. -/
def signed_headers : String := "host;x-amz-date;x-amz-target"

/-- `payload_hash = hashlib.sha256(payload.encode('utf-8')).hexdigest()`. -/
def payload_hash (payload : String) : String := hexdigest (sha256 (utf8 payload))

/-- The canonical request of line 49. -/
def canonical_request (host amz_date payload : String) : String :=
  method ++ "\n" ++ canonical_uri ++ "\n" ++ canonical_querystring ++ "\n" ++
    canonical_headers host amz_date ++ "\n" ++ signed_headers ++ "\n" ++ payload_hash payload

/-- `algorithm = 'AWS4-HMAC-SHA256'`. -/
def algorithm : String := "AWS4-HMAC-SHA256"

/-- The credential scope of line 52. -/
def credential_scope (date_stamp region service : String) : String :=
  date_stamp ++ "/" ++ region ++ "/" ++ service ++ "/" ++ "aws4_request"

/-- The string to sign of line 53. -/
def string_to_sign (host amz_date date_stamp region service payload : String) : String :=
  algorithm ++ "\n" ++ amz_date ++ "\n" ++ credential_scope date_stamp region service ++ "\n" ++
    hexdigest (sha256 (utf8 (canonical_request host amz_date payload)))

/-- The hex signature of line 56: HMAC keyed by the derived signing key. -/
def signature (secret_key region service host payload : String) (t : DateTime) : String :=
  hexdigest (hmacSha256 (get_signature_key secret_key (dateStampOf t) region service)
    (utf8 (string_to_sign host (amzDateOf t) (dateStampOf t) region service payload)))

/-- The authorization header value assembled on line 58. -/
def authorization_header (access_key scope sh sig : String) : String :=
  algorithm ++ " " ++ "Credential=" ++ access_key ++ "/" ++ scope ++ ", " ++
    "SignedHeaders=" ++ sh ++ ", " ++ "Signature=" ++ sig

/-- `get_signed_headers(access_key, secret_key, region, service, host, payload)`,
with the instant captured by `datetime.datetime.utcnow()` made explicit. -/
def get_signed_headers (access_key secret_key region service host payload : String)
    (t : DateTime) : Headers :=
  { host := host
    x_amz_date := amzDateOf t
    x_amz_target := "com.amazon.paapi5.v1.ProductAdvertisingAPIv1.GetItems"
    content_type := "application/json; charset=utf-8"
    authorization := authorization_header access_key
      (credential_scope (dateStampOf t) region service) signed_headers
      (signature secret_key region service host payload t)
    content_encoding := "amz-1.0" }

end PaapiGetItem

/-! ## `scripts/paapi_search_items.py` (signing-key derivation, duplicated) -/

namespace PaapiSearchItems

/-- `sign(key, msg)` as duplicated in `paapi_search_items.py`. -/
def sign (key : List Nat) (msg : String) : List Nat := hmacSha256 key (utf8 msg)

/-- `get_signature_key` as duplicated in `paapi_search_items.py`. -/
def get_signature_key (key date_stamp region_name service_name : String) : List Nat :=
  let k_date := sign (utf8 ("AWS4" ++ key)) date_stamp
  let k_region := sign k_date region_name
  let k_service := sign k_region service_name
  let k_signing := sign k_service "aws4_request"
  k_signing

end PaapiSearchItems

/-! ## `scripts/investigate_browsenodes.py` (signing-key derivation, duplicated) -/

namespace InvestigateBrowsenodes

/-- `sign(key, msg)` as duplicated in `investigate_browsenodes.py`. -/
def sign (key : List Nat) (msg : String) : List Nat := hmacSha256 key (utf8 msg)

/-- `get_signature_key` as duplicated in `investigate_browsenodes.py`. -/
def get_signature_key (key date_stamp region_name service_name : String) : List Nat :=
  let k_date := sign (utf8 ("AWS4" ++ key)) date_stamp
  let k_region := sign k_date region_name
  let k_service := sign k_region service_name
  let k_signing := sign k_service "aws4_request"
  k_signing

end InvestigateBrowsenodes

/-- The four-step keyed-hash chain exactly as the specification words it:
nested HMAC-SHA256 calls whose innermost key is the UTF-8 encoding of
`"AWS4"` prepended to the secret key, finished with the literal message
`"aws4_request"`; the result stays raw digest bytes.  This definition is
written from the spec, to be compared with `get_signature_key`, which is
written from the source. -/
def signing_key_chain_spec (secretKey dateStamp region service : String) : List Nat :=
  hmacSha256
    (hmacSha256
      (hmacSha256
        (hmacSha256 (utf8 ("AWS4" ++ secretKey)) (utf8 dateStamp))
        (utf8 region))
      (utf8 service))
    (utf8 "aws4_request")

/-!
## Sanity checks of the cryptographic embedding

Standard test vectors, evaluated through the kernel.
-/

-- FIPS 180-4 test vector: SHA-256("abc").
example : hexdigest (sha256 (utf8 "abc")) =
    "ba7816bf8f01cfea414140de5dae2223b00361a396177a9cb410ff61f20015ad" := by decide

-- SHA-256 of the empty message.
example : hexdigest (sha256 (utf8 "")) =
    "e3b0c44298fc1c149afbf4c8996fb92427ae41e4649b934ca495991b7852b855" := by decide

-- RFC 4231 test case 2: HMAC-SHA256(key = "Jefe", msg = "what do ya want for nothing?").
example : hexdigest (hmacSha256 (utf8 "Jefe") (utf8 "what do ya want for nothing?")) =
    "5bdcc146bf60754e6a042426089575c75a003f089d2739839dec58b964ec3843" := by decide

/-! ## General lemmas -/

/-- String concatenation is associative. -/
theorem strAppendAssoc (a b c : String) : a ++ b ++ c = a ++ (b ++ c) :=
  String.ext (by simp [String.data_append])

/-! ## Claim theorems -/

/-- Claim C1: for every secret key, date stamp, region and service string,
`get_signature_key` returns the four-step nested HMAC-SHA256 chain
starting from the UTF-8 bytes of `"AWS4" + secretKey` and finishing with
the literal message `"aws4_request"`, as raw digest bytes. -/
theorem c1_get_signature_key_is_hmac_chain (secretKey dateStamp region service : String) :
    PaapiGetItem.get_signature_key secretKey dateStamp region service =
      signing_key_chain_spec secretKey dateStamp region service := rfl

/-- Claim C2: the canonical request built by `get_signed_headers` is exactly
the six fields — method, canonical URI, canonical query string, canonical
headers block, signed-headers list, payload hash — joined by `"\n"` in that
order; the canonical headers block is the three newline-terminated lines
`host:`, `x-amz-date:`, `x-amz-target:`; and the signed-headers list is the
literal `"host;x-amz-date;x-amz-target"`, naming the same three headers in
the block's order. -/
theorem c2_canonical_request_structure (host payload : String) (t : DateTime) :
    PaapiGetItem.canonical_request host (amzDateOf t) payload =
      String.intercalate "\n" [PaapiGetItem.method, PaapiGetItem.canonical_uri,
        PaapiGetItem.canonical_querystring, PaapiGetItem.canonical_headers host (amzDateOf t),
        PaapiGetItem.signed_headers, PaapiGetItem.payload_hash payload]
    ∧ PaapiGetItem.canonical_headers host (amzDateOf t) =
        ("host:" ++ host ++ "\n") ++ ("x-amz-date:" ++ amzDateOf t ++ "\n") ++
          ("x-amz-target:" ++ "com.amazon.paapi5.v1.ProductAdvertisingAPIv1.GetItems" ++ "\n")
    ∧ PaapiGetItem.signed_headers = "host;x-amz-date;x-amz-target" := by
  refine ⟨rfl, ?_, rfl⟩
  unfold PaapiGetItem.canonical_headers
  rw [show ("x-amz-target:com.amazon.paapi5.v1.ProductAdvertisingAPIv1.GetItems\n" : String) =
      "x-amz-target:" ++ "com.amazon.paapi5.v1.ProductAdvertisingAPIv1.GetItems" ++ "\n" from rfl]
  simp only [strAppendAssoc]

/-- Claim C3: the signature embedded in the authorization value returned by
`get_signed_headers` is the lowercase hex HMAC-SHA256, keyed by the derived
signing-key bytes, of the string-to-sign: four lines joined by `"\n"` —
the literal `"AWS4-HMAC-SHA256"`, the full timestamp, the credential
scope, and the lowercase hex SHA-256 digest of the canonical request. -/
theorem c3_signature_from_string_to_sign
    (access secret region service host payload : String) (t : DateTime) :
    (PaapiGetItem.get_signed_headers access secret region service host payload t).authorization =
      PaapiGetItem.authorization_header access
        (PaapiGetItem.credential_scope (dateStampOf t) region service)
        PaapiGetItem.signed_headers
        (PaapiGetItem.signature secret region service host payload t)
    ∧ PaapiGetItem.signature secret region service host payload t =
        hexdigest (hmacSha256
          (PaapiGetItem.get_signature_key secret (dateStampOf t) region service)
          (utf8 (String.intercalate "\n" ["AWS4-HMAC-SHA256", amzDateOf t,
            PaapiGetItem.credential_scope (dateStampOf t) region service,
            hexdigest (sha256 (utf8
              (PaapiGetItem.canonical_request host (amzDateOf t) payload)))]))) :=
  ⟨rfl, rfl⟩

/-- Claim C4: the authorization header value returned by
`get_signed_headers` is the exact concatenation
`"AWS4-HMAC-SHA256 Credential=" + accessKey + "/" + credentialScope +
", SignedHeaders=" + signedHeaders + ", Signature=" + signature`, where
the credential scope is the date stamp, region, service and the literal
`"aws4_request"` joined by `"/"`. -/
theorem c4_authorization_header_format
    (access secret region service host payload : String) (t : DateTime) :
    (PaapiGetItem.get_signed_headers access secret region service host payload t).authorization =
      "AWS4-HMAC-SHA256 Credential=" ++ access ++ "/" ++
        PaapiGetItem.credential_scope (dateStampOf t) region service ++
        ", SignedHeaders=" ++ PaapiGetItem.signed_headers ++
        ", Signature=" ++ PaapiGetItem.signature secret region service host payload t
    ∧ PaapiGetItem.credential_scope (dateStampOf t) region service =
        String.intercalate "/" [dateStampOf t, region, service, "aws4_request"] := by
  refine ⟨?_, rfl⟩
  show PaapiGetItem.authorization_header access
      (PaapiGetItem.credential_scope (dateStampOf t) region service)
      PaapiGetItem.signed_headers
      (PaapiGetItem.signature secret region service host payload t) = _
  unfold PaapiGetItem.authorization_header PaapiGetItem.algorithm
  rw [show ("AWS4-HMAC-SHA256 Credential=" : String) =
        "AWS4-HMAC-SHA256" ++ " " ++ "Credential=" from rfl,
      show (", SignedHeaders=" : String) = ", " ++ "SignedHeaders=" from rfl,
      show (", Signature=" : String) = ", " ++ "Signature=" from rfl]
  simp only [strAppendAssoc]

/-- Claim C5: the signing pipeline is deterministic — for fixed inputs
(credentials, captured timestamp, region, service, host, payload) two
invocations of `get_signed_headers` return identical header mappings, and
`get_signature_key` applied twice to identical arguments yields identical
key bytes; the embedding is a pure function of its arguments, with no
randomness and no I/O. -/
theorem c5_signing_deterministic
    (access secret region service host payload : String) (t : DateTime)
    (key dateStamp regionName serviceName : String) :
    PaapiGetItem.get_signed_headers access secret region service host payload t =
      PaapiGetItem.get_signed_headers access secret region service host payload t
    ∧ PaapiGetItem.get_signature_key key dateStamp regionName serviceName =
        PaapiGetItem.get_signature_key key dateStamp regionName serviceName :=
  ⟨rfl, rfl⟩

/-- Claim C6: with the empty payload, the canonical request built by
`get_signed_headers` is still the full six-field canonical request, and
the payload hash embedded in it is the SHA-256 of zero bytes,
`e3b0c44298fc1c149afbf4c8996fb92427ae41e4649b934ca495991b7852b855`. -/
theorem c6_empty_payload_hash (host : String) (t : DateTime) :
    PaapiGetItem.payload_hash "" =
      "e3b0c44298fc1c149afbf4c8996fb92427ae41e4649b934ca495991b7852b855"
    ∧ PaapiGetItem.canonical_request host (amzDateOf t) "" =
        String.intercalate "\n" [PaapiGetItem.method, PaapiGetItem.canonical_uri,
          PaapiGetItem.canonical_querystring, PaapiGetItem.canonical_headers host (amzDateOf t),
          PaapiGetItem.signed_headers,
          "e3b0c44298fc1c149afbf4c8996fb92427ae41e4649b934ca495991b7852b855"] := by
  have h1 : PaapiGetItem.payload_hash "" =
      "e3b0c44298fc1c149afbf4c8996fb92427ae41e4649b934ca495991b7852b855" := by decide
  refine ⟨h1, ?_⟩
  unfold PaapiGetItem.canonical_request
  rw [h1]
  rfl

/-- Claim C7: the three duplicated copies of `get_signature_key` in
`paapi_get_item.py`, `paapi_search_items.py` and
`investigate_browsenodes.py` are extensionally equal: on every input they
return identical bytes. -/
theorem c7_duplicated_signing_key_equal (key dateStamp regionName serviceName : String) :
    PaapiGetItem.get_signature_key key dateStamp regionName serviceName =
      PaapiSearchItems.get_signature_key key dateStamp regionName serviceName
    ∧ PaapiSearchItems.get_signature_key key dateStamp regionName serviceName =
        InvestigateBrowsenodes.get_signature_key key dateStamp regionName serviceName :=
  ⟨rfl, rfl⟩

/-- Claim C9: the values the returned header mapping assigns to `host`,
`x-amz-date` and `x-amz-target` are exactly the host, full timestamp and
target strings embedded in the canonical headers block of the canonical
request whose hash was signed: the block is rebuilt verbatim from the three
returned header values, and the returned authorization carries the
signature of the string-to-sign over that very canonical request. -/
theorem c9_transmitted_headers_match_signed
    (access secret region service host payload : String) (t : DateTime) :
    (PaapiGetItem.get_signed_headers access secret region service host payload t).host = host
    ∧ (PaapiGetItem.get_signed_headers access secret region service host payload t).x_amz_date =
        amzDateOf t
    ∧ (PaapiGetItem.get_signed_headers access secret region service host payload t).x_amz_target =
        "com.amazon.paapi5.v1.ProductAdvertisingAPIv1.GetItems"
    ∧ PaapiGetItem.canonical_headers host (amzDateOf t) =
        "host:" ++
          (PaapiGetItem.get_signed_headers access secret region service host payload t).host ++
          "\n" ++ "x-amz-date:" ++
          (PaapiGetItem.get_signed_headers access secret region service host payload t).x_amz_date ++
          "\n" ++ "x-amz-target:" ++
          (PaapiGetItem.get_signed_headers access secret region service host payload t).x_amz_target ++
          "\n"
    ∧ (PaapiGetItem.get_signed_headers access secret region service host payload t).authorization =
        PaapiGetItem.authorization_header access
          (PaapiGetItem.credential_scope (dateStampOf t) region service)
          PaapiGetItem.signed_headers
          (hexdigest (hmacSha256
            (PaapiGetItem.get_signature_key secret (dateStampOf t) region service)
            (utf8 (PaapiGetItem.string_to_sign host (amzDateOf t) (dateStampOf t)
              region service payload)))) := by
  refine ⟨rfl, rfl, rfl, ?_, rfl⟩
  show PaapiGetItem.canonical_headers host (amzDateOf t) =
    "host:" ++ host ++ "\n" ++ "x-amz-date:" ++ amzDateOf t ++ "\n" ++ "x-amz-target:" ++
      "com.amazon.paapi5.v1.ProductAdvertisingAPIv1.GetItems" ++ "\n"
  unfold PaapiGetItem.canonical_headers
  rw [show ("x-amz-target:com.amazon.paapi5.v1.ProductAdvertisingAPIv1.GetItems\n" : String) =
      "x-amz-target:" ++ "com.amazon.paapi5.v1.ProductAdvertisingAPIv1.GetItems" ++ "\n" from rfl]
  simp only [strAppendAssoc]

/-! ## Digit-rendering lemmas for the timestamp claims -/

/-- `natDigits` of a value below `10 ^ k` has at most `k` digits. -/
theorem natDigits_length_le : ∀ (fuel n k : Nat), n < 10 ^ k → 0 < k →
    (natDigits fuel n).length ≤ k := by
  intro fuel
  induction fuel with
  | zero => intro n k _ hk; simp [natDigits]
  | succ f ih =>
    intro n k hn hk
    unfold natDigits
    split
    · simpa using hk
    · rename_i hge
      have hk2 : 2 ≤ k := by
        by_contra hcon
        have hk1 : k = 1 := by omega
        subst hk1
        simp [pow_one] at hn
        omega
      have hdiv : n / 10 < 10 ^ (k - 1) := by
        have hpow : 10 ^ k = 10 ^ (k - 1) * 10 := by
          conv_lhs => rw [show k = (k - 1) + 1 by omega]
          rw [pow_succ]
        rw [Nat.div_lt_iff_lt_mul (by norm_num)]
        omega
      have hrec := ih (n / 10) (k - 1) hdiv (by omega)
      simp only [List.length_append, List.length_cons, List.length_nil]
      omega

/-- `padLeft w` yields exactly `w` characters when the input fits. -/
theorem padLeft_data_length (w : Nat) (s : String) (h : s.data.length ≤ w) :
    (padLeft w s).data.length = w := by
  have hlen : s.length = s.data.length := rfl
  simp [padLeft]
  omega

/-- The year field of the full timestamp rendering has four characters. -/
theorem year_field_length (n : Nat) (h : n < 10000) :
    (padLeft 4 (natStr n)).data.length = 4 :=
  padLeft_data_length 4 (natStr n) (natDigits_length_le (n + 1) n 4 (by omega) (by omega))

/-- Two-digit fields of the timestamp renderings have two characters. -/
theorem two_digit_field_length (n : Nat) (h : n < 100) :
    (padLeft 2 (natStr n)).data.length = 2 :=
  padLeft_data_length 2 (natStr n) (natDigits_length_le (n + 1) n 2 (by omega) (by omega))

/-! ## Newline-freeness lemmas for the authorization header -/

/-- Every byte of a SHA-256 digest is below 256. -/
theorem sha256_mem_lt {msg : List Nat} : ∀ b ∈ sha256 msg, b < 256 := by
  intro b hb
  have hb' : b ∈ ((processBlocks ((padMessage msg).length / 64) H256
      (padMessage msg)).map wordBytes).flatten := hb
  rcases List.mem_flatten.1 hb' with ⟨l, hl, hbl⟩
  rcases List.mem_map.1 hl with ⟨w, _, rfl⟩
  simp only [wordBytes, List.mem_cons, List.not_mem_nil, or_false] at hbl
  rcases hbl with h | h | h | h <;> subst h <;> exact Nat.mod_lt _ (by norm_num)

/-- Every byte of an HMAC-SHA256 digest is below 256. -/
theorem hmacSha256_mem_lt {key msg : List Nat} : ∀ b ∈ hmacSha256 key msg, b < 256 :=
  fun b hb => sha256_mem_lt b hb

/-- Hex digests of byte lists contain no newline character. -/
theorem hexdigest_no_newline {bs : List Nat} (h : ∀ b ∈ bs, b < 256) :
    '\n' ∉ (hexdigest bs).data := by
  intro hc
  have hc' : '\n' ∈ (bs.map byteHex).flatten := hc
  rcases List.mem_flatten.1 hc' with ⟨l, hl, hcl⟩
  rcases List.mem_map.1 hl with ⟨b, hb, rfl⟩
  have hb256 := h b hb
  have key16 : ∀ m, m < 16 → ('\n' : Char) ≠ hexChar m := by decide
  simp only [byteHex, List.mem_cons, List.not_mem_nil, or_false] at hcl
  rcases hcl with h' | h'
  · exact key16 (b / 16) (by omega) h'
  · exact key16 (b % 16) (by omega) h'

/-- Decimal digit renderings contain no newline character. -/
theorem natDigits_ne_newline : ∀ (fuel n : Nat) (c : Char), c ∈ natDigits fuel n → c ≠ '\n' := by
  intro fuel
  induction fuel with
  | zero => intro n c hc; simp [natDigits] at hc
  | succ f ih =>
    intro n c hc
    have digit10 : ∀ m, m < 10 → digitChar m ≠ '\n' := by decide
    unfold natDigits at hc
    split at hc
    · rename_i h
      simp only [List.mem_cons, List.not_mem_nil, or_false] at hc
      subst hc
      exact digit10 n h
    · rcases List.mem_append.1 hc with h' | h'
      · exact ih _ _ h'
      · simp only [List.mem_cons, List.not_mem_nil, or_false] at h'
        subst h'
        exact digit10 _ (Nat.mod_lt _ (by norm_num))

/-- `natStr` contains no newline character. -/
theorem natStr_no_newline (n : Nat) : '\n' ∉ (natStr n).data :=
  fun hc => natDigits_ne_newline (n + 1) n '\n' hc rfl

/-- `padLeft` preserves newline-freeness. -/
theorem padLeft_no_newline (w : Nat) (s : String) (h : '\n' ∉ s.data) :
    '\n' ∉ (padLeft w s).data := by
  intro hc
  rcases List.mem_append.1 hc with h' | h'
  · exact absurd (List.eq_of_mem_replicate h') (by decide)
  · exact h h'

/-- The date-only stamp contains no newline character. -/
theorem dateStampOf_no_newline (t : DateTime) : '\n' ∉ (dateStampOf t).data := by
  intro hc
  have hc' : '\n' ∈ (padLeft 4 (natStr t.year)).data ++ (padLeft 2 (natStr t.month)).data ++
      (padLeft 2 (natStr t.day)).data := by
    simpa [dateStampOf, String.data_append] using hc
  rcases List.mem_append.1 hc' with h' | h'
  · rcases List.mem_append.1 h' with h'' | h''
    · exact padLeft_no_newline _ _ (natStr_no_newline _) h''
    · exact padLeft_no_newline _ _ (natStr_no_newline _) h''
  · exact padLeft_no_newline _ _ (natStr_no_newline _) h'

/-- The hex signature contains no newline character. -/
theorem signature_no_newline (secret region service host payload : String) (t : DateTime) :
    '\n' ∉ (PaapiGetItem.signature secret region service host payload t).data :=
  hexdigest_no_newline (fun b hb => hmacSha256_mem_lt b hb)

/-- Concatenation preserves newline-freeness. -/
theorem no_newline_append {x y : String} (hx : '\n' ∉ x.data) (hy : '\n' ∉ y.data) :
    '\n' ∉ (x ++ y).data := by
  intro hc
  rcases List.mem_append.1 (by simpa [String.data_append] using hc) with h | h
  · exact hx h
  · exact hy h

/-- Claim C8: within one invocation of `get_signed_headers` the two
timestamp renderings come from the same captured instant `t` — the
`x-amz-date` header carries the full rendering of `t` while the credential
scope inside the authorization uses the date-only rendering of the same
`t` — and, for the field ranges `datetime` guarantees (year below 10000,
month and day below 100), the date-only stamp is exactly the first 8
characters of the full instant string. -/
theorem c8_date_stamp_prefix_of_amz_date
    (access secret region service host payload : String) (t : DateTime)
    (hy : t.year < 10000) (hm : t.month < 100) (hd : t.day < 100) :
    (PaapiGetItem.get_signed_headers access secret region service host payload t).x_amz_date =
      amzDateOf t
    ∧ (PaapiGetItem.get_signed_headers access secret region service host payload t).authorization =
        PaapiGetItem.authorization_header access
          (PaapiGetItem.credential_scope (dateStampOf t) region service)
          PaapiGetItem.signed_headers
          (PaapiGetItem.signature secret region service host payload t)
    ∧ (dateStampOf t).data = ((amzDateOf t).data).take 8 := by
  refine ⟨rfl, rfl, ?_⟩
  have h4 := year_field_length t.year hy
  have h2m := two_digit_field_length t.month hm
  have h2d := two_digit_field_length t.day hd
  have e2 : (amzDateOf t).data =
      ((padLeft 4 (natStr t.year)).data ++ (padLeft 2 (natStr t.month)).data ++
        (padLeft 2 (natStr t.day)).data) ++
      (("T" : String).data ++ (padLeft 2 (natStr t.hour)).data ++
        (padLeft 2 (natStr t.minute)).data ++ (padLeft 2 (natStr t.second)).data ++
        ("Z" : String).data) := by
    simp [amzDateOf, String.data_append]
  have hlen : ((padLeft 4 (natStr t.year)).data ++ (padLeft 2 (natStr t.month)).data ++
      (padLeft 2 (natStr t.day)).data).length = 8 := by
    simp [h4, h2m, h2d]
  rw [e2, List.take_left' hlen]
  simp [dateStampOf, String.data_append]

/-- Witness for C8 at a concrete instant and concrete inputs. -/
theorem c8_witness :
    (PaapiGetItem.get_signed_headers "AKIDEXAMPLE" "wJalrXUtnFEMI" "us-west-2"
        "ProductAdvertisingAPI" "webservices.amazon.co.jp" "payload"
        ⟨2026, 10, 12, 3, 4, 5⟩).x_amz_date = amzDateOf ⟨2026, 10, 12, 3, 4, 5⟩
    ∧ (PaapiGetItem.get_signed_headers "AKIDEXAMPLE" "wJalrXUtnFEMI" "us-west-2"
        "ProductAdvertisingAPI" "webservices.amazon.co.jp" "payload"
        ⟨2026, 10, 12, 3, 4, 5⟩).authorization =
        PaapiGetItem.authorization_header "AKIDEXAMPLE"
          (PaapiGetItem.credential_scope (dateStampOf ⟨2026, 10, 12, 3, 4, 5⟩)
            "us-west-2" "ProductAdvertisingAPI")
          PaapiGetItem.signed_headers
          (PaapiGetItem.signature "wJalrXUtnFEMI" "us-west-2" "ProductAdvertisingAPI"
            "webservices.amazon.co.jp" "payload" ⟨2026, 10, 12, 3, 4, 5⟩)
    ∧ (dateStampOf ⟨2026, 10, 12, 3, 4, 5⟩).data =
        ((amzDateOf ⟨2026, 10, 12, 3, 4, 5⟩).data).take 8 :=
  c8_date_stamp_prefix_of_amz_date "AKIDEXAMPLE" "wJalrXUtnFEMI" "us-west-2"
    "ProductAdvertisingAPI" "webservices.amazon.co.jp" "payload" ⟨2026, 10, 12, 3, 4, 5⟩
    (by decide) (by decide) (by decide)

/-- Counterexample to claim C10 as stated: with an access key that itself
contains a newline, the authorization header value returned by
`get_signed_headers` does contain an embedded newline character. -/
theorem c10_counterexample_newline_access_key :
    '\n' ∈ ((PaapiGetItem.get_signed_headers "AKID\nEXAMPLE" "wJalrXUtnFEMI" "us-west-2"
      "ProductAdvertisingAPI" "webservices.amazon.co.jp" "payload"
      ⟨2024, 1, 1, 0, 0, 0⟩).authorization).data := by decide

/-- Claim C10 as amended: for every secret key, host and payload string,
and every access key, region and service string that are themselves free
of newline characters, the authorization header value returned by
`get_signed_headers` contains no embedded newline characters. -/
theorem c10_authorization_no_newline
    (access secret region service host payload : String) (t : DateTime)
    (ha : '\n' ∉ access.data) (hr : '\n' ∉ region.data) (hs : '\n' ∉ service.data) :
    '\n' ∉ ((PaapiGetItem.get_signed_headers access secret region service host
      payload t).authorization).data := by
  have hsig := signature_no_newline secret region service host payload t
  have hscope : '\n' ∉ (PaapiGetItem.credential_scope (dateStampOf t) region service).data := by
    unfold PaapiGetItem.credential_scope
    exact no_newline_append (no_newline_append (no_newline_append (no_newline_append
      (no_newline_append (no_newline_append (dateStampOf_no_newline t) (by decide)) hr)
      (by decide)) hs) (by decide)) (by decide)
  show '\n' ∉ (PaapiGetItem.authorization_header access
      (PaapiGetItem.credential_scope (dateStampOf t) region service)
      PaapiGetItem.signed_headers
      (PaapiGetItem.signature secret region service host payload t)).data
  unfold PaapiGetItem.authorization_header
  exact no_newline_append (no_newline_append (no_newline_append (no_newline_append
    (no_newline_append (no_newline_append (no_newline_append (no_newline_append
    (no_newline_append (no_newline_append (no_newline_append (by decide) (by decide))
    (by decide)) ha) (by decide)) hscope) (by decide)) (by decide)) (by decide))
    (by decide)) (by decide)) hsig

/-- Witness for the amended C10 at concrete inputs. -/
theorem c10_no_newline_witness :
    '\n' ∉ ((PaapiGetItem.get_signed_headers "AKIDEXAMPLE" "wJalrXUtnFEMI" "us-west-2"
      "ProductAdvertisingAPI" "webservices.amazon.co.jp" "payload"
      ⟨2024, 1, 1, 0, 0, 0⟩).authorization).data :=
  c10_authorization_no_newline "AKIDEXAMPLE" "wJalrXUtnFEMI" "us-west-2"
    "ProductAdvertisingAPI" "webservices.amazon.co.jp" "payload" ⟨2024, 1, 1, 0, 0, 0⟩
    (by decide) (by decide) (by decide)
